import Mathlib

/-!
Shallow embedding of the `msh` interactive mesh viewer (Rust) for checking
its natural-language specification.  Machine floats (`f32`) are modelled as
real numbers; fallible operations return `Except`/`Option`; the mutex-guarded
shared state and the command channel are modelled by explicit state passing
over a command list.
-/

namespace Msh

/-- 3-component vector / point (`nalgebra::Point3<f32>` / `Vector3<f32>`),
with `f32` modelled as `ℝ`. -/
structure V3 where
  x : ℝ
  y : ℝ
  z : ℝ

/-- Componentwise subtraction, as `nalgebra`'s `Point3 - Point3`. -/
def V3.sub (a b : V3) : V3 := ⟨a.x - b.x, a.y - b.y, a.z - b.z⟩

/-- Euclidean norm, as `nalgebra`'s `.norm()`. -/
noncomputable def V3.norm (v : V3) : ℝ :=
  Real.sqrt (v.x * v.x + v.y * v.y + v.z * v.z)

/-- Two-argument arctangent, modelling `f32::atan2(self = y, other = x)`. -/
noncomputable def atan2 (y x : ℝ) : ℝ :=
  if 0 < x then Real.arctan (y / x)
  else if x < 0 then
    (if 0 ≤ y then Real.arctan (y / x) + Real.pi
     else Real.arctan (y / x) - Real.pi)
  else if 0 < y then Real.pi / 2
  else if y < 0 then -(Real.pi / 2)
  else 0

/-- `f32::clamp(lo, hi)`, branch structure as in the Rust standard library. -/
noncomputable def clampR (v lo hi : ℝ) : ℝ :=
  if v < lo then lo else if v > hi then hi else v

/-! ## Arc-ball camera (`src/viewer/camera.rs`) -/

/-- `ArcBallCamera` state. -/
structure ArcBallCamera where
  eye : V3
  target : V3
  up : V3
  distance : ℝ
  theta : ℝ
  phi : ℝ
  width : ℕ
  height : ℕ

namespace ArcBallCamera

/-- `ArcBallCamera::new`: derive `distance`, `theta`, `phi` from the vector
from target to eye. -/
noncomputable def new (eye target : V3) (width height : ℕ) : ArcBallCamera :=
  let to_eye := eye.sub target
  let distance := to_eye.norm
  let horizontal_dist := Real.sqrt (to_eye.x * to_eye.x + to_eye.z * to_eye.z)
  let theta := atan2 (-to_eye.y) horizontal_dist
  let phi := atan2 to_eye.x to_eye.z
  ⟨eye, target, ⟨0, 1, 0⟩, distance, theta, phi, width, height⟩

/-- `ArcBallCamera::update_position`: recompute `eye` from the spherical
representation `(target, distance, theta, phi)`. -/
noncomputable def update_position (c : ArcBallCamera) : ArcBallCamera :=
  { c with eye :=
      ⟨c.target.x + c.distance * Real.cos c.theta * Real.sin c.phi,
       c.target.y - c.distance * Real.sin c.theta,
       c.target.z + c.distance * Real.cos c.theta * Real.cos c.phi⟩ }

/-- `ArcBallCamera::rotate(delta_x, delta_y)`. -/
noncomputable def rotate (c : ArcBallCamera) (delta_x delta_y : ℝ) : ArcBallCamera :=
  let sensitivity : ℝ := 0.005
  update_position
    { c with
      phi := c.phi - delta_x * sensitivity,
      theta := clampR (c.theta - delta_y * sensitivity)
        (-(Real.pi / 2) + 0.01) (Real.pi / 2 - 0.01) }

/-- `ArcBallCamera::zoom(delta)`. -/
noncomputable def zoom (c : ArcBallCamera) (delta : ℝ) : ArcBallCamera :=
  update_position { c with distance := max (c.distance * (1 - delta * 0.1)) 0.1 }

/-- `ArcBallCamera::set_position(position)`: store the new eye and derive
`distance`, `theta`, `phi` from the vector `target - eye`. -/
noncomputable def set_position (c : ArcBallCamera) (position : V3) : ArcBallCamera :=
  let eye := position
  let to_target := c.target.sub eye
  let distance := to_target.norm
  let horizontal_dist :=
    Real.sqrt (to_target.x * to_target.x + to_target.z * to_target.z)
  { c with
    eye := eye,
    distance := distance,
    theta := atan2 (-to_target.y) horizontal_dist,
    phi := atan2 to_target.x to_target.z }

/-- `ArcBallCamera::set_target(target)`. -/
noncomputable def set_target (c : ArcBallCamera) (target : V3) : ArcBallCamera :=
  let to_target := target.sub c.eye
  let distance := to_target.norm
  let horizontal_dist :=
    Real.sqrt (to_target.x * to_target.x + to_target.z * to_target.z)
  { c with
    target := target,
    distance := distance,
    theta := atan2 (-to_target.y) horizontal_dist,
    phi := atan2 to_target.x to_target.z }

/-- `ArcBallCamera::position()`: returns the stored eye point. -/
def position (c : ArcBallCamera) : V3 := c.eye

end ArcBallCamera

/-! ## Shared viewer state (`src/viewer/state.rs`) -/

/-- `MeshStats`. -/
structure MeshStats where
  vertex_count : ℕ
  edge_count : ℕ
  face_count : ℕ
  is_manifold : Bool
  hole_count : ℕ

/-- `MeshStats::default()`. -/
def MeshStats.default : MeshStats := ⟨0, 0, 0, false, 0⟩

/-- `ViewerState`. -/
structure ViewerState where
  camera_position : V3
  camera_target : V3
  model_rotation : V3
  show_wireframe : Bool
  show_backfaces : Bool
  show_ui : Bool
  stats : MeshStats

/-- `ViewerCommand`.  The `Screenshot` and `Quit` variants are the ones
constructed in `src/rpc/methods.rs` and consumed in
`src/viewer/rpc_viewer.rs`. -/
inductive ViewerCommand where
  | LoadModel (path : String) (mesh_name : Option String)
  | SetRotation (x y z : ℝ)
  | RotateAroundAxis (axis : V3) (angle : ℝ)
  | SetCameraPosition (position : V3)
  | SetCameraTarget (target : V3)
  | ToggleWireframe (enabled : Bool)
  | ToggleBackfaces (enabled : Bool)
  | ToggleUI (enabled : Bool)
  | Screenshot (path : String)
  | CaptureFrame (path : Option String)
  | Quit

/-! ## External geometry library boundary

The mesh type returned by `load_mesh` and the `nalgebra` rotation algebra
are external collaborators (out of the repository's core); they are modelled
as data and abstract functions at exactly the interface the core calls. -/

/-- A triangle as returned by `mesh.face_positions(face_id)` with accessors
`p1`, `p2`, `p3`. -/
structure Triangle where
  p1 : V3
  p2 : V3
  p3 : V3

/-- The external loader's mesh: vertex positions, per-face triangles, and the
summary statistics the core queries (`count_vertices`, `count_faces`,
`unique_edges().count()`, `boundary_rings()`). -/
structure Mesh where
  vertices : List V3
  faces : List Triangle
  count_vertices : ℕ
  count_faces : ℕ
  unique_edges_count : ℕ
  boundary_rings : List (List ℕ)

/-- External calls made by the render loop: `load_mesh` from
`crate::mesh::loader`, and the `nalgebra` Euler/axis-angle composition used
by `ViewerState::apply_rotation`. -/
structure ExternalOps where
  load_mesh : String → Option String → Except String Mesh
  compose_rotation : V3 → V3 → ℝ → V3

/-- `ViewerState::apply_rotation(axis, angle)`: the body is entirely
`nalgebra` rotation algebra (Euler → matrix → compose → Euler), abstracted as
`ExternalOps.compose_rotation`. -/
def ViewerState.apply_rotation (ops : ExternalOps) (st : ViewerState)
    (axis : V3) (angle : ℝ) : ViewerState :=
  { st with model_rotation := ops.compose_rotation st.model_rotation axis angle }

/-! ## RPC handlers (`src/rpc/methods.rs`)

Each handler is modelled as the `ViewerCommand` it enqueues together with the
acknowledgement string it returns (the channel send itself cannot fail in the
model). -/

namespace ViewerRpcImpl

/-- `toggle_wireframe`: read the flag under the lock, negate, enqueue an
explicit set-command. -/
def toggle_wireframe (state : ViewerState) : ViewerCommand × String :=
  let new_value := !state.show_wireframe
  (ViewerCommand.ToggleWireframe new_value,
   "Wireframe " ++ (if new_value then "enabled" else "disabled"))

/-- `toggle_backfaces`. -/
def toggle_backfaces (state : ViewerState) : ViewerCommand × String :=
  let new_value := !state.show_backfaces
  (ViewerCommand.ToggleBackfaces new_value,
   "Backfaces " ++ (if new_value then "enabled" else "disabled"))

/-- `toggle_ui`. -/
def toggle_ui (state : ViewerState) : ViewerCommand × String :=
  let new_value := !state.show_ui
  (ViewerCommand.ToggleUI new_value,
   "UI " ++ (if new_value then "enabled" else "disabled"))

/-- `screenshot(path)`: the dispatched command carries the caller-supplied
path string. -/
def screenshot (path : String) : ViewerCommand × String :=
  (ViewerCommand.Screenshot path, "Screenshot will be saved to: " ++ path)

end ViewerRpcImpl

/-! ## Render-loop command processing (`src/viewer/rpc_viewer.rs`) -/

/-- Componentwise minimum (the three `min[i] = min[i].min(pos._)` updates). -/
noncomputable def vMin (a : V3) (b : V3) : V3 :=
  ⟨min a.x b.x, min a.y b.y, min a.z b.z⟩

/-- Componentwise maximum. -/
noncomputable def vMax (a : V3) (b : V3) : V3 :=
  ⟨max a.x b.x, max a.y b.y, max a.z b.z⟩

/-- Bounding-box minimum of the vertex list.  The source folds from
`f32::INFINITY`, which for a nonempty list equals folding from the first
element; an empty vertex list (where the source would keep the infinities)
is given a dummy value, and no claim depends on it. -/
noncomputable def bboxMin : List V3 → V3
  | [] => ⟨0, 0, 0⟩
  | v :: vs => vs.foldl vMin v

/-- Bounding-box maximum (source folds from `f32::NEG_INFINITY`). -/
noncomputable def bboxMax : List V3 → V3
  | [] => ⟨0, 0, 0⟩
  | v :: vs => vs.foldl vMax v

/-- The triangle-soup vertex list built by the `LoadModel` extraction loop:
for each face, its three corners translated by `-center`. -/
noncomputable def extractVertices (faces : List Triangle) (center : V3) : List V3 :=
  faces.flatMap fun t => [t.p1.sub center, t.p2.sub center, t.p3.sub center]

/-- The front-face index list built by the extraction loop: for each face it
pushes `vertex_idx`, `vertex_idx + 1`, `vertex_idx + 2` and advances
`vertex_idx` by 3. -/
def buildIndices : ℕ → ℕ → List ℕ
  | 0, _ => []
  | n + 1, vertex_idx =>
      vertex_idx :: (vertex_idx + 1) :: (vertex_idx + 2) ::
        buildIndices n (vertex_idx + 3)

/-- The backface index list: the loop over `i in (0..indices.len()).step_by(3)`
pushing `indices[i]`, `indices[i+2]`, `indices[i+1]`.  A trailing chunk of
fewer than three indices (impossible for the load path, and an out-of-bounds
panic in the source) is dropped. -/
def buildBackfaces : List ℕ → List ℕ
  | a :: b :: c :: rest => a :: c :: b :: buildBackfaces rest
  | _ => []

/-- The fields of `RpcViewerApp` observable by commands.  GPU, window,
renderer and mouse-tracking fields are not modelled; `exited` records that
`std::process::exit(0)` was reached by a `Quit` command. -/
structure RpcViewerApp where
  camera : Option ArcBallCamera
  state : ViewerState
  vertices : List V3
  indices : List ℕ
  backface_indices : List ℕ
  max_dimension : ℝ
  screenshot_path : Option String
  exited : Bool

/-- The `LoadModel` arm of `process_commands`, on a successfully loaded mesh:
recompute the bounding box and `max_dimension`, rebuild the triangle-soup
vertex and index buffers, reposition the camera to frame the model, and
publish fresh `MeshStats` into shared state. -/
noncomputable def loadModelOk (app : RpcViewerApp) (camera : ArcBallCamera)
    (mesh : Mesh) : RpcViewerApp :=
  let bmin := bboxMin mesh.vertices
  let bmax := bboxMax mesh.vertices
  let center : V3 :=
    ⟨(bmin.x + bmax.x) / 2, (bmin.y + bmax.y) / 2, (bmin.z + bmax.z) / 2⟩
  let size : V3 := ⟨bmax.x - bmin.x, bmax.y - bmin.y, bmax.z - bmin.z⟩
  let max_dimension := max (max size.x size.y) size.z
  let vertices := extractVertices mesh.faces center
  let indices := buildIndices mesh.faces.length 0
  let backface_indices := buildBackfaces indices
  let camera_distance := max_dimension * 2.5
  let eye : V3 := ⟨camera_distance * 0.5, camera_distance * 0.3, camera_distance⟩
  let camera := (camera.set_position eye).set_target ⟨0, 0, 0⟩
  let stats : MeshStats :=
    ⟨mesh.count_vertices, mesh.unique_edges_count, mesh.count_faces,
     mesh.boundary_rings.isEmpty, mesh.boundary_rings.length⟩
  { app with
    vertices := vertices,
    indices := indices,
    backface_indices := backface_indices,
    max_dimension := max_dimension,
    camera := some camera,
    state := { app.state with stats := stats } }

/-- One iteration of the `process_commands` drain loop: the command has
already been received from the channel; if the camera is not yet initialized
the command is dropped, otherwise it is applied. -/
noncomputable def processOne (ops : ExternalOps) (app : RpcViewerApp)
    (cmd : ViewerCommand) : RpcViewerApp :=
  match app.camera with
  | none => app
  | some camera =>
    match cmd with
    | .ToggleWireframe enabled =>
        { app with state := { app.state with show_wireframe := enabled } }
    | .ToggleBackfaces enabled =>
        { app with state := { app.state with show_backfaces := enabled } }
    | .ToggleUI enabled =>
        { app with state := { app.state with show_ui := enabled } }
    | .SetCameraPosition position =>
        { app with camera := some (camera.set_position position) }
    | .SetCameraTarget target =>
        { app with camera := some (camera.set_target target) }
    | .SetRotation x y z =>
        { app with state := { app.state with model_rotation := ⟨x, y, z⟩ } }
    | .RotateAroundAxis axis angle =>
        { app with state := app.state.apply_rotation ops axis angle }
    | .LoadModel path mesh_name =>
        match ops.load_mesh path mesh_name with
        | .ok mesh => loadModelOk app camera mesh
        | .error _ => app
    | .Screenshot path =>
        { app with screenshot_path := some path }
    | .CaptureFrame _ => app
    | .Quit => { app with exited := true }

/-- `RpcViewerApp::process_commands`: drain the whole queue, applying each
command in FIFO order; `Quit` (modelled by `exited`) terminates processing
because the source calls `std::process::exit(0)`. -/
noncomputable def process_commands (ops : ExternalOps) :
    RpcViewerApp → List ViewerCommand → RpcViewerApp
  | app, [] => app
  | app, cmd :: rest =>
      let app2 := processOne ops app cmd
      if app2.exited then app2 else process_commands ops app2 rest

/-! ## Angle parsing (`src/rpc/types.rs`) -/

/-- `f32::to_radians`: multiply by π / 180. -/
noncomputable def to_radians (degrees : ℝ) : ℝ := degrees * (Real.pi / 180)

/-- Rust's `str::trim` (an external standard-library routine): drop
whitespace characters from both ends. -/
def trimStr (s : String) : String :=
  String.mk
    (((s.data.dropWhile Char.isWhitespace).reverse.dropWhile
        Char.isWhitespace).reverse)

/-- `parse_angle`, with Rust's `str::parse::<f32>` abstracted as `numParse`
(an external standard-library routine).  The source first trims, returns an
error on an empty string, otherwise unwraps the last character and branches
on it; slicing off the final byte equals dropping the final character since
the suffixes matched are ASCII. -/
noncomputable def parse_angle (numParse : String → Option ℝ) (s : String) :
    Except String ℝ :=
  let t := trimStr s
  match t.data.getLast? with
  | none => Except.error "Empty angle string"
  | some last_char =>
    if last_char = 'd' ∨ last_char = 'D' then
      match numParse (t.dropRight 1) with
      | some degrees => Except.ok (to_radians degrees)
      | none => Except.error ("Invalid number in angle: " ++ t.dropRight 1)
    else if last_char = 'r' ∨ last_char = 'R' then
      match numParse (t.dropRight 1) with
      | some radians => Except.ok radians
      | none => Except.error ("Invalid number in angle: " ++ t.dropRight 1)
    else
      match numParse t with
      | some radians => Except.ok radians
      | none =>
          Except.error ("Invalid angle format \x27" ++ t ++
            "\x27. Use \x2790d\x27 for degrees or \x271.57r\x27 for radians")

/-- The numeric part of a trimmed angle string: everything before a `d`/`D`/
`r`/`R` unit suffix, or the whole string when unsuffixed. -/
def numericPart (t : String) : String :=
  match t.data.getLast? with
  | some c => if c = 'd' ∨ c = 'D' ∨ c = 'r' ∨ c = 'R' then t.dropRight 1 else t
  | none => t

/-- Whether a trimmed angle string carries the degrees suffix. -/
def isDegSuffix (t : String) : Bool :=
  match t.data.getLast? with
  | some c => c = 'd' ∨ c = 'D'
  | none => false

/-- `ViewerState::default()`. -/
def ViewerState.defaultState : ViewerState :=
  ⟨⟨5, 3, 5⟩, ⟨0, 0, 0⟩, ⟨0, 0, 0⟩, true, false, true, MeshStats.default⟩

/-- `ViewerState::for_mesh(max_dimension, stats)`. -/
noncomputable def ViewerState.for_mesh (max_dimension : ℝ) (stats : MeshStats) :
    ViewerState :=
  let camera_distance := max_dimension * 2.5
  ⟨⟨camera_distance * 0.5, camera_distance * 0.3, camera_distance⟩,
   ⟨0, 0, 0⟩, ⟨0, 0, 0⟩, true, false, true, stats⟩

/-- Spec notion (for comparison with the dispatched command): a Unix absolute
path, one whose first character is the path separator. -/
def isAbsolutePath (p : String) : Bool := p.data.head? == some '/'

/-- One relative-toggle round trip for the wireframe flag: the RPC handler
reads the shared state, enqueues its negation command, and the render loop
drains and applies it before the next toggle reads. -/
noncomputable def toggleWireframeRound (ops : ExternalOps) (app : RpcViewerApp) :
    RpcViewerApp :=
  process_commands ops app [(ViewerRpcImpl.toggle_wireframe app.state).1]

/-- One relative-toggle round trip for the backfaces flag. -/
noncomputable def toggleBackfacesRound (ops : ExternalOps) (app : RpcViewerApp) :
    RpcViewerApp :=
  process_commands ops app [(ViewerRpcImpl.toggle_backfaces app.state).1]

/-- One relative-toggle round trip for the UI flag. -/
noncomputable def toggleUiRound (ops : ExternalOps) (app : RpcViewerApp) :
    RpcViewerApp :=
  process_commands ops app [(ViewerRpcImpl.toggle_ui app.state).1]

/-! ## Concrete instances used by the witnesses -/

/-- A concrete camera: eye `(0,0,1)`, target the origin. -/
noncomputable def camera0 : ArcBallCamera :=
  ArcBallCamera.new ⟨0, 0, 1⟩ ⟨0, 0, 0⟩ 800 600

/-- Concrete external operations whose loader always fails. -/
def ops0 : ExternalOps :=
  ⟨fun _ _ => Except.error "load failed", fun r _ _ => r⟩

/-- A concrete application state with an initialized camera. -/
noncomputable def app0 : RpcViewerApp :=
  ⟨some camera0, ViewerState.defaultState, [], [0, 1, 2], [0, 2, 1], 1, none, false⟩

/-- A concrete application state before camera initialization. -/
noncomputable def appNoCam : RpcViewerApp :=
  ⟨none, ViewerState.defaultState, [], [0, 1, 2], [0, 2, 1], 1, none, false⟩

/-- A concrete stand-in for `str::parse::<f32>` that accepts exactly "90". -/
def numParse90 : String → Option ℝ :=
  fun str => if str = "90" then some 90 else none

/-! ## Helper lemmas -/

lemma camera0_distance : camera0.distance = 1 := by
  simp only [camera0, ArcBallCamera.new, V3.sub, V3.norm]
  norm_num

lemma camera0_theta : camera0.theta = 0 := by
  have h : Real.sqrt ((0 - 0 : ℝ) * (0 - 0) + (1 - 0) * (1 - 0)) = 1 := by norm_num
  simp only [camera0, ArcBallCamera.new, V3.sub, atan2, h]
  norm_num [Real.arctan_zero]

lemma rotate_theta (c : ArcBallCamera) (dx dy : ℝ) :
    (c.rotate dx dy).theta =
      clampR (c.theta - dy * 0.005) (-(Real.pi / 2) + 0.01) (Real.pi / 2 - 0.01) :=
  rfl

lemma clamp_theta_mem (x : ℝ) :
    -(Real.pi / 2) < clampR x (-(Real.pi / 2) + 0.01) (Real.pi / 2 - 0.01) ∧
      clampR x (-(Real.pi / 2) + 0.01) (Real.pi / 2 - 0.01) < Real.pi / 2 := by
  have hpi : (3 : ℝ) < Real.pi := Real.pi_gt_three
  unfold clampR
  constructor <;> split_ifs <;> linarith

/-! ## Claims about the arc-ball camera -/

/-- C7: for every point and every camera state, `set_position (x,y,z)`
followed immediately by `position()` returns exactly `(x,y,z)`: the stored
eye point is returned without renormalization or recomputation. -/
theorem set_position_then_position_exact (c : ArcBallCamera) (p : V3) :
    (c.set_position p).position = p := rfl

/-- C6: `zoom(delta)` sets `distance` to
`max (distance * (1 - delta*0.1)) 0.1`, and the result is never below the
`0.1` floor, for any real `delta`. -/
theorem zoom_distance_floor (c : ArcBallCamera) (delta : ℝ)
    (h : 0.1 ≤ c.distance) :
    (c.zoom delta).distance = max (c.distance * (1 - delta * 0.1)) 0.1 ∧
      0.1 ≤ (c.zoom delta).distance :=
  ⟨rfl, le_max_right _ _⟩

/-- Witness for C6 at a concrete camera and a large positive delta. -/
theorem zoom_distance_floor_witness :
    0.1 ≤ camera0.distance ∧
      ((camera0.zoom 5).distance = max (camera0.distance * (1 - 5 * 0.1)) 0.1 ∧
        0.1 ≤ (camera0.zoom 5).distance) := by
  have h : (0.1 : ℝ) ≤ camera0.distance := by rw [camera0_distance]; norm_num
  exact ⟨h, zoom_distance_floor camera0 5 h⟩

/-- C5: `theta` stays strictly inside `(-π/2, π/2)` after any finite
sequence of `rotate(dx, dy)` calls, starting from any camera whose `theta`
is strictly inside that interval (the hard clamp to
`[-π/2+0.01, π/2-0.01]` is preserved by every call). -/
theorem rotate_preserves_theta_bounds (deltas : List (ℝ × ℝ))
    (c : ArcBallCamera)
    (h1 : -(Real.pi / 2) < c.theta) (h2 : c.theta < Real.pi / 2) :
    -(Real.pi / 2) < (deltas.foldl (fun cam d => cam.rotate d.1 d.2) c).theta ∧
      (deltas.foldl (fun cam d => cam.rotate d.1 d.2) c).theta < Real.pi / 2 := by
  induction deltas generalizing c with
  | nil => exact ⟨h1, h2⟩
  | cons d rest ih =>
      have hm := clamp_theta_mem (c.theta - d.2 * 0.005)
      simp only [List.foldl_cons]
      exact ih (c.rotate d.1 d.2)
        (by rw [rotate_theta]; exact hm.1)
        (by rw [rotate_theta]; exact hm.2)

/-- Witness for C5 at a concrete camera and a one-step rotation sequence. -/
theorem rotate_preserves_theta_bounds_witness :
    (-(Real.pi / 2) < camera0.theta ∧ camera0.theta < Real.pi / 2) ∧
      (-(Real.pi / 2) <
          ([((1 : ℝ), (1 : ℝ))].foldl (fun cam d => cam.rotate d.1 d.2)
            camera0).theta ∧
        ([((1 : ℝ), (1 : ℝ))].foldl (fun cam d => cam.rotate d.1 d.2)
            camera0).theta < Real.pi / 2) := by
  have h1 : -(Real.pi / 2) < camera0.theta := by
    rw [camera0_theta]; linarith [Real.pi_pos]
  have h2 : camera0.theta < Real.pi / 2 := by
    rw [camera0_theta]; linarith [Real.pi_pos]
  exact ⟨⟨h1, h2⟩, rotate_preserves_theta_bounds _ camera0 h1 h2⟩

/-- C1 (evaluation at the failing input): with target at the origin, calling
`set_position((0,0,1))` and then `update_position` (as every `rotate`/`zoom`
does) moves the eye to `(0,0,-1)` — the reflection of the requested position
through the target — because `set_position` derives `theta`/`phi` from
`target - eye` while `new`/`update_position` use the `eye - target`
convention.  The spherical and absolute representations are therefore not
synchronized after `set_position`. -/
theorem set_position_then_update_reflects_eye :
    (((ArcBallCamera.new ⟨0, 0, 1⟩ ⟨0, 0, 0⟩ 800 600).set_position
        ⟨0, 0, 1⟩).update_position).eye = ⟨0, 0, -1⟩ ∧
      (⟨0, 0, -1⟩ : V3) ≠ ⟨0, 0, 1⟩ := by
  constructor
  · have hs : Real.sqrt ((0 - 0 : ℝ) * (0 - 0) + (0 - 1) * (0 - 1)) = 1 := by
      norm_num
    have hn : Real.sqrt
        ((0 - 0 : ℝ) * (0 - 0) + (0 - 0) * (0 - 0) + (0 - 1) * (0 - 1)) = 1 := by
      norm_num
    simp only [ArcBallCamera.new, ArcBallCamera.set_position,
      ArcBallCamera.update_position, V3.sub, V3.norm, atan2, hs, hn]
    norm_num [Real.arctan_zero, Real.cos_pi, Real.sin_pi, Real.cos_zero,
      Real.sin_zero]
  · intro h
    have := congrArg V3.z h
    norm_num at this

/-! ## Claims about the command queue and render loop -/

lemma parity_decide_succ (n : ℕ) :
    (decide ((n + 1) % 2 = 1)) = !(decide (n % 2 = 1)) := by
  rcases Nat.mod_two_eq_zero_or_one n with h | h <;> simp [Nat.add_mod, h]

lemma iterate_parity (f : RpcViewerApp → RpcViewerApp)
    (proj : RpcViewerApp → Bool) (camera : ArcBallCamera)
    (hstep : ∀ app, app.camera = some camera →
      proj (f app) = !(proj app) ∧ (f app).camera = app.camera) :
    ∀ (n : ℕ) (app : RpcViewerApp), app.camera = some camera →
      proj (f^[n] app) = Bool.xor (proj app) (decide (n % 2 = 1)) := by
  intro n
  induction n with
  | zero => intro app h; simp
  | succ m ih =>
      intro app h
      have hs := hstep app h
      rw [Function.iterate_succ_apply, ih (f app) (hs.2.trans h), hs.1,
        parity_decide_succ]
      cases proj app <;> cases (decide (m % 2 = 1)) <;> rfl

lemma toggleWireframeRound_step (ops : ExternalOps) (camera : ArcBallCamera)
    (app : RpcViewerApp) (h : app.camera = some camera) :
    (toggleWireframeRound ops app).state.show_wireframe
        = !app.state.show_wireframe ∧
      (toggleWireframeRound ops app).camera = app.camera := by
  unfold toggleWireframeRound ViewerRpcImpl.toggle_wireframe
  simp [process_commands, processOne, h]

lemma toggleBackfacesRound_step (ops : ExternalOps) (camera : ArcBallCamera)
    (app : RpcViewerApp) (h : app.camera = some camera) :
    (toggleBackfacesRound ops app).state.show_backfaces
        = !app.state.show_backfaces ∧
      (toggleBackfacesRound ops app).camera = app.camera := by
  unfold toggleBackfacesRound ViewerRpcImpl.toggle_backfaces
  simp [process_commands, processOne, h]

lemma toggleUiRound_step (ops : ExternalOps) (camera : ArcBallCamera)
    (app : RpcViewerApp) (h : app.camera = some camera) :
    (toggleUiRound ops app).state.show_ui = !app.state.show_ui ∧
      (toggleUiRound ops app).camera = app.camera := by
  unfold toggleUiRound ViewerRpcImpl.toggle_ui
  simp [process_commands, processOne, h]

/-- C2: each relative-toggle RPC reads the current flag, enqueues its
negation as an explicit set-command, and the render loop applies it; `n`
sequential toggle round trips on a flag therefore leave the flag equal to
`initial XOR (n mod 2 == 1)`, for each of the three flags. -/
theorem toggle_parity (ops : ExternalOps) (camera : ArcBallCamera)
    (app : RpcViewerApp) (n : ℕ) (h : app.camera = some camera) :
    ((toggleWireframeRound ops)^[n] app).state.show_wireframe
        = Bool.xor app.state.show_wireframe (decide (n % 2 = 1)) ∧
      ((toggleBackfacesRound ops)^[n] app).state.show_backfaces
        = Bool.xor app.state.show_backfaces (decide (n % 2 = 1)) ∧
      ((toggleUiRound ops)^[n] app).state.show_ui
        = Bool.xor app.state.show_ui (decide (n % 2 = 1)) :=
  ⟨iterate_parity _ (fun a => a.state.show_wireframe) camera
      (fun a ha => toggleWireframeRound_step ops camera a ha) n app h,
    iterate_parity _ (fun a => a.state.show_backfaces) camera
      (fun a ha => toggleBackfacesRound_step ops camera a ha) n app h,
    iterate_parity _ (fun a => a.state.show_ui) camera
      (fun a ha => toggleUiRound_step ops camera a ha) n app h⟩

/-- Witness for C2 at a concrete app state and three toggle round trips. -/
theorem toggle_parity_witness :
    app0.camera = some camera0 ∧
      (((toggleWireframeRound ops0)^[3] app0).state.show_wireframe
          = Bool.xor app0.state.show_wireframe (decide (3 % 2 = 1)) ∧
        ((toggleBackfacesRound ops0)^[3] app0).state.show_backfaces
          = Bool.xor app0.state.show_backfaces (decide (3 % 2 = 1)) ∧
        ((toggleUiRound ops0)^[3] app0).state.show_ui
          = Bool.xor app0.state.show_ui (decide (3 % 2 = 1))) :=
  ⟨rfl, toggle_parity ops0 camera0 app0 3 rfl⟩

/-- C10: every command drained from the queue before the camera has been
initialized (before `resumed`) is removed and silently discarded: the whole
queue is consumed and the application state is exactly unchanged. -/
theorem commands_discarded_before_camera_init (ops : ExternalOps)
    (cmds : List ViewerCommand) (app : RpcViewerApp)
    (h : app.camera = none) :
    process_commands ops app cmds = app := by
  induction cmds with
  | nil => rfl
  | cons c rest ih =>
      have h1 : processOne ops app c = app := by simp [processOne, h]
      simp only [process_commands]
      rw [h1]
      by_cases he : app.exited <;> simp [he, ih]

/-- Witness for C10: a toggle and a quit drained before camera init leave
the app unchanged. -/
theorem commands_discarded_before_camera_init_witness :
    appNoCam.camera = none ∧
      process_commands ops0 appNoCam
        [ViewerCommand.ToggleWireframe true, ViewerCommand.Quit] = appNoCam :=
  ⟨rfl, commands_discarded_before_camera_init ops0
    [ViewerCommand.ToggleWireframe true, ViewerCommand.Quit] appNoCam rfl⟩

/-- C3: processing a `LoadModel` command whose external loader call fails
leaves everything unchanged — vertices, front and backface index buffers,
`max_dimension`, the camera, and the published `MeshStats` — the load is
all-or-nothing. -/
theorem load_model_failure_all_or_nothing (ops : ExternalOps)
    (app : RpcViewerApp) (camera : ArcBallCamera) (path : String)
    (mesh_name : Option String) (e : String)
    (hcam : app.camera = some camera)
    (herr : ops.load_mesh path mesh_name = Except.error e) :
    (process_commands ops app [ViewerCommand.LoadModel path mesh_name]).vertices
        = app.vertices ∧
      (process_commands ops app [ViewerCommand.LoadModel path mesh_name]).indices
        = app.indices ∧
      (process_commands ops app
          [ViewerCommand.LoadModel path mesh_name]).backface_indices
        = app.backface_indices ∧
      (process_commands ops app
          [ViewerCommand.LoadModel path mesh_name]).max_dimension
        = app.max_dimension ∧
      (process_commands ops app [ViewerCommand.LoadModel path mesh_name]).camera
        = app.camera ∧
      (process_commands ops app
          [ViewerCommand.LoadModel path mesh_name]).state.stats
        = app.state.stats ∧
      process_commands ops app [ViewerCommand.LoadModel path mesh_name] = app := by
  have h1 : process_commands ops app [ViewerCommand.LoadModel path mesh_name]
      = app := by
    have h2 : processOne ops app (ViewerCommand.LoadModel path mesh_name)
        = app := by
      simp [processOne, hcam, herr]
    simp only [process_commands]
    rw [h2]
    by_cases he : app.exited <;> simp [he, process_commands]
  exact ⟨by rw [h1], by rw [h1], by rw [h1], by rw [h1], by rw [h1],
    by rw [h1], h1⟩

/-- Witness for C3 at a concrete app state and an always-failing loader. -/
theorem load_model_failure_all_or_nothing_witness :
    app0.camera = some camera0 ∧
      ops0.load_mesh "missing.obj" none = Except.error "load failed" ∧
      process_commands ops0 app0
        [ViewerCommand.LoadModel "missing.obj" none] = app0 :=
  ⟨rfl, rfl,
    (load_model_failure_all_or_nothing ops0 app0 camera0 "missing.obj" none
      "load failed" rfl rfl).2.2.2.2.2.2⟩

/-! ## Claims about the screenshot path -/

/-- The path carried by a `Screenshot` command. -/
def ViewerCommand.screenshotPathOf : ViewerCommand → Option String
  | .Screenshot path => some path
  | _ => none

/-- C4 counterexample: the screenshot handler dispatches the relative path
`"shot.png"` unchanged; the path carried in the `Screenshot` command is not
an absolute path. -/
theorem screenshot_dispatches_relative_path :
    (ViewerRpcImpl.screenshot "shot.png").1.screenshotPathOf
        = some "shot.png" ∧
      isAbsolutePath "shot.png" = false :=
  ⟨rfl, by decide⟩

/-- C4 amended: the screenshot operation's originator performs no path
resolution — the dispatched `Screenshot` command carries the caller-supplied
path string verbatim, and the render loop stores that same string for the
next frame's capture. -/
theorem screenshot_path_carried_verbatim (path : String) (ops : ExternalOps)
    (app : RpcViewerApp) (camera : ArcBallCamera)
    (hcam : app.camera = some camera) :
    (ViewerRpcImpl.screenshot path).1 = ViewerCommand.Screenshot path ∧
      (process_commands ops app
          [(ViewerRpcImpl.screenshot path).1]).screenshot_path = some path := by
  refine ⟨rfl, ?_⟩
  have h2 : processOne ops app (ViewerRpcImpl.screenshot path).1
      = { app with screenshot_path := some path } := by
    simp [processOne, ViewerRpcImpl.screenshot, hcam]
  simp only [process_commands]
  rw [h2]
  by_cases he : app.exited <;> simp [he, process_commands]

/-- Witness for the amended C4 at a concrete relative path. -/
theorem screenshot_path_carried_verbatim_witness :
    app0.camera = some camera0 ∧
      ((ViewerRpcImpl.screenshot "shot.png").1
          = ViewerCommand.Screenshot "shot.png" ∧
        (process_commands ops0 app0
            [(ViewerRpcImpl.screenshot "shot.png").1]).screenshot_path
          = some "shot.png") :=
  ⟨rfl, screenshot_path_carried_verbatim "shot.png" ops0 app0 camera0 rfl⟩

/-! ## Claims about the backface index buffer -/

lemma buildIndices_length (n v : ℕ) : (buildIndices n v).length = 3 * n := by
  induction n generalizing v with
  | zero => rfl
  | succ m ih => simp [buildIndices, ih]; omega

lemma buildBackfaces_buildIndices_length (n v : ℕ) :
    (buildBackfaces (buildIndices n v)).length = 3 * n := by
  induction n generalizing v with
  | zero => rfl
  | succ m ih => simp [buildIndices, buildBackfaces, ih]; omega

lemma getD_cons3 (a b c : ℕ) (l : List ℕ) (k : ℕ) :
    (a :: b :: c :: l).getD (k + 3) 0 = l.getD k 0 := by
  rw [show k + 3 = k + 2 + 1 from by omega, List.getD_cons_succ,
    show k + 2 = k + 1 + 1 from by omega, List.getD_cons_succ,
    List.getD_cons_succ]

lemma buildIndices_getD3 (i n v : ℕ) (h : i < n) :
    (buildIndices n v).getD (3 * i) 0 = v + 3 * i ∧
      (buildIndices n v).getD (3 * i + 1) 0 = v + 3 * i + 1 ∧
      (buildIndices n v).getD (3 * i + 2) 0 = v + 3 * i + 2 := by
  induction i generalizing n v with
  | zero =>
      cases n with
      | zero => exact absurd h (by omega)
      | succ m => exact ⟨rfl, rfl, rfl⟩
  | succ j ih =>
      cases n with
      | zero => exact absurd h (by omega)
      | succ m =>
          have H := ih m (v + 3) (by omega)
          refine ⟨?_, ?_, ?_⟩
          · show (v :: (v + 1) :: (v + 2) ::
                buildIndices m (v + 3)).getD (3 * (j + 1)) 0 = v + 3 * (j + 1)
            rw [show 3 * (j + 1) = 3 * j + 3 from by ring, getD_cons3, H.1]
            omega
          · show (v :: (v + 1) :: (v + 2) ::
                buildIndices m (v + 3)).getD (3 * (j + 1) + 1) 0
                = v + 3 * (j + 1) + 1
            rw [show 3 * (j + 1) + 1 = (3 * j + 1) + 3 from by ring,
              getD_cons3, H.2.1]
            omega
          · show (v :: (v + 1) :: (v + 2) ::
                buildIndices m (v + 3)).getD (3 * (j + 1) + 2) 0
                = v + 3 * (j + 1) + 2
            rw [show 3 * (j + 1) + 2 = (3 * j + 2) + 3 from by ring,
              getD_cons3, H.2.2]
            omega

lemma buildBackfaces_getD3 (i n v : ℕ) (h : i < n) :
    (buildBackfaces (buildIndices n v)).getD (3 * i) 0 = v + 3 * i ∧
      (buildBackfaces (buildIndices n v)).getD (3 * i + 1) 0 = v + 3 * i + 2 ∧
      (buildBackfaces (buildIndices n v)).getD (3 * i + 2) 0 = v + 3 * i + 1 := by
  induction i generalizing n v with
  | zero =>
      cases n with
      | zero => exact absurd h (by omega)
      | succ m => exact ⟨rfl, rfl, rfl⟩
  | succ j ih =>
      cases n with
      | zero => exact absurd h (by omega)
      | succ m =>
          have H := ih m (v + 3) (by omega)
          refine ⟨?_, ?_, ?_⟩
          · show (v :: (v + 2) :: (v + 1) ::
                buildBackfaces (buildIndices m (v + 3))).getD (3 * (j + 1)) 0
                = v + 3 * (j + 1)
            rw [show 3 * (j + 1) = 3 * j + 3 from by ring, getD_cons3, H.1]
            omega
          · show (v :: (v + 2) :: (v + 1) ::
                buildBackfaces (buildIndices m (v + 3))).getD (3 * (j + 1) + 1) 0
                = v + 3 * (j + 1) + 2
            rw [show 3 * (j + 1) + 1 = (3 * j + 1) + 3 from by ring,
              getD_cons3, H.2.1]
            omega
          · show (v :: (v + 2) :: (v + 1) ::
                buildBackfaces (buildIndices m (v + 3))).getD (3 * (j + 1) + 2) 0
                = v + 3 * (j + 1) + 1
            rw [show 3 * (j + 1) + 2 = (3 * j + 2) + 3 from by ring,
              getD_cons3, H.2.2]
            omega

/-- C8: for every mesh geometry built by the load path, the backface index
buffer has the same length as the front-face buffer, and each backface
triple is the corresponding front-face triple with its last two indices
swapped. -/
theorem backface_triples_swapped (app : RpcViewerApp)
    (camera : ArcBallCamera) (mesh : Mesh) :
    (loadModelOk app camera mesh).backface_indices.length
        = (loadModelOk app camera mesh).indices.length ∧
      ∀ i, i < mesh.faces.length →
        ((loadModelOk app camera mesh).backface_indices.getD (3 * i) 0
            = (loadModelOk app camera mesh).indices.getD (3 * i) 0 ∧
          (loadModelOk app camera mesh).backface_indices.getD (3 * i + 1) 0
            = (loadModelOk app camera mesh).indices.getD (3 * i + 2) 0 ∧
          (loadModelOk app camera mesh).backface_indices.getD (3 * i + 2) 0
            = (loadModelOk app camera mesh).indices.getD (3 * i + 1) 0) := by
  have hI : (loadModelOk app camera mesh).indices
      = buildIndices mesh.faces.length 0 := rfl
  have hB : (loadModelOk app camera mesh).backface_indices
      = buildBackfaces (buildIndices mesh.faces.length 0) := rfl
  rw [hI, hB]
  constructor
  · rw [buildBackfaces_buildIndices_length, buildIndices_length]
  · intro i hi
    have A := buildIndices_getD3 i mesh.faces.length 0 hi
    have B := buildBackfaces_getD3 i mesh.faces.length 0 hi
    exact ⟨by rw [B.1, A.1], by rw [B.2.1, A.2.2], by rw [B.2.2, A.2.1]⟩

/-- A concrete two-face mesh for the C8 witness. -/
noncomputable def mesh0 : Mesh :=
  ⟨[⟨0, 0, 0⟩, ⟨1, 0, 0⟩, ⟨0, 1, 0⟩, ⟨0, 0, 1⟩],
   [⟨⟨0, 0, 0⟩, ⟨1, 0, 0⟩, ⟨0, 1, 0⟩⟩, ⟨⟨0, 0, 0⟩, ⟨1, 0, 0⟩, ⟨0, 0, 1⟩⟩],
   4, 2, 9, []⟩

/-- Witness for C8 at a concrete two-face mesh and its second triangle. -/
theorem backface_triples_swapped_witness :
    (loadModelOk app0 camera0 mesh0).backface_indices.length
        = (loadModelOk app0 camera0 mesh0).indices.length ∧
      (1 < mesh0.faces.length ∧
        ((loadModelOk app0 camera0 mesh0).backface_indices.getD (3 * 1) 0
            = (loadModelOk app0 camera0 mesh0).indices.getD (3 * 1) 0 ∧
          (loadModelOk app0 camera0 mesh0).backface_indices.getD (3 * 1 + 1) 0
            = (loadModelOk app0 camera0 mesh0).indices.getD (3 * 1 + 2) 0 ∧
          (loadModelOk app0 camera0 mesh0).backface_indices.getD (3 * 1 + 2) 0
            = (loadModelOk app0 camera0 mesh0).indices.getD (3 * 1 + 1) 0)) :=
  ⟨(backface_triples_swapped app0 camera0 mesh0).1,
    by decide,
    (backface_triples_swapped app0 camera0 mesh0).2 1 (by decide)⟩

/-! ## Claims about angle parsing -/

lemma string_empty_of_data_nil {t : String} (h : t.data = []) : t = "" := by
  cases t with
  | mk d => rw [show d = [] from h]

/-- C9: `parse_angle` maps a `d`/`D`-suffixed numeric string to its value
converted from degrees to radians, an `r`/`R`-suffixed or unsuffixed numeric
string to its value read as radians, and returns an error exactly when the
trimmed input is empty or the numeric part fails to parse. -/
theorem parse_angle_correct (numParse : String → Option ℝ) (s : String) :
    ((∃ e, parse_angle numParse s = Except.error e) ↔
        (trimStr s = "" ∨ numParse (numericPart (trimStr s)) = none)) ∧
      (∀ v, numParse (numericPart (trimStr s)) = some v → trimStr s ≠ "" →
        parse_angle numParse s =
          Except.ok (if isDegSuffix (trimStr s) then to_radians v else v)) := by
  rcases hl : (trimStr s).data.getLast? with _ | c
  · have ht : trimStr s = "" :=
      string_empty_of_data_nil (List.getLast?_eq_none_iff.mp hl)
    constructor
    · simp only [parse_angle, hl]
      exact ⟨fun _ => Or.inl ht, fun _ => ⟨_, rfl⟩⟩
    · intro v _ hne
      exact absurd ht hne
  · have hne : trimStr s ≠ "" := by
      intro h
      rw [h] at hl
      simp at hl
    by_cases hd : c = 'd' ∨ c = 'D'
    · simp only [parse_angle, numericPart, isDegSuffix, hl]
      have hnp : (if c = 'd' ∨ c = 'D' ∨ c = 'r' ∨ c = 'R'
          then (trimStr s).dropRight 1 else trimStr s)
          = (trimStr s).dropRight 1 := by
        rcases hd with h | h <;> simp [h]
      rw [hnp]
      rcases hp : numParse ((trimStr s).dropRight 1) with _ | v
      · constructor
        · simp [hd]
        · intro v hv
          simp at hv
      · constructor
        · simp [hd, hne]
        · intro w hw _
          have : v = w := by simpa using hw
          subst this
          rcases hd with h | h <;> simp [h]
    · by_cases hr : c = 'r' ∨ c = 'R'
      · simp only [parse_angle, numericPart, isDegSuffix, hl]
        have hnp : (if c = 'd' ∨ c = 'D' ∨ c = 'r' ∨ c = 'R'
            then (trimStr s).dropRight 1 else trimStr s)
            = (trimStr s).dropRight 1 := by
          rcases hr with h | h <;> simp [h]
        rw [hnp]
        rcases hp : numParse ((trimStr s).dropRight 1) with _ | v
        · constructor
          · simp [hd, hr]
          · intro v hv
            simp at hv
        · constructor
          · simp [hd, hr, hne]
          · intro w hw _
            have : v = w := by simpa using hw
            subst this
            rcases hr with h | h <;> simp [hd, h]
      · have hall : ¬(c = 'd' ∨ c = 'D' ∨ c = 'r' ∨ c = 'R') := by
          intro h
          rcases h with h | h | h | h
          · exact hd (Or.inl h)
          · exact hd (Or.inr h)
          · exact hr (Or.inl h)
          · exact hr (Or.inr h)
        simp only [parse_angle, numericPart, isDegSuffix, hl]
        have hnp : (if c = 'd' ∨ c = 'D' ∨ c = 'r' ∨ c = 'R'
            then (trimStr s).dropRight 1 else trimStr s) = trimStr s := by
          simp [hall]
        rw [hnp]
        rcases hp : numParse (trimStr s) with _ | v
        · constructor
          · simp [hd, hr]
          · intro v hv
            simp at hv
        · constructor
          · simp [hd, hr, hne]
          · intro w hw _
            have : v = w := by simpa using hw
            subst this
            simp [hd, hr]

/-- Witness for C9: the degree-suffixed string `"90d"` parses to the
radians conversion of 90. -/
theorem parse_angle_correct_witness :
    numParse90 (numericPart (trimStr "90d")) = some 90 ∧
      trimStr "90d" ≠ "" ∧
      parse_angle numParse90 "90d" =
        Except.ok (if isDegSuffix (trimStr "90d") then to_radians 90 else 90) :=
  ⟨rfl, by decide,
    (parse_angle_correct numParse90 "90d").2 90 rfl (by decide)⟩

end Msh
